import Mathlib

/-!
# Verification of the recurring-scheduling core of FavaleTrainerCRM

This file gives a shallow embedding, in Lean 4, of the recurrence-expansion,
conflict-detection and series-mutation logic of the repository:

* `server/routes.ts` (`app.post('/api/sessions')` recurring branch,
  `app.post('/api/sessions/check-conflicts')`, `generateClassesFromRecurrence`,
  `app.post('/api/new-scheduling/recurrent')`);
* `server/controllers/newScheduling.controller.ts`
  (`createRecurrentScheduling`, `updateClass`, `generateRecurrentClasses`).

Timestamps are modelled at minute precision as `Int` (minutes since the Unix
epoch); the sources only ever manipulate whole minutes (`setHours(h, m, 0, 0)`,
15-minute tolerances, whole-day/month steps), so this loses nothing the claims
depend on.  JavaScript `Date` month arithmetic (`setMonth` with day-of-month
overflow rolling into the following month) is reproduced exactly via the
standard civil-from-days / days-from-civil algorithms, which are affine in the
day argument and therefore normalize out-of-range days precisely as JS does.
-/

namespace FavaleCRM

/-- Days since 1970-01-01 of the civil date `(y, m, d)`, `m ∈ 1..12`.
The formula is affine in `d`, so an out-of-range `d` (e.g. February 31)
normalizes into the following month exactly as JavaScript `Date` does. -/
def daysFromCivil (y m d : Int) : Int :=
  let y1 := if m ≤ 2 then y - 1 else y
  let era := Int.fdiv y1 400
  let yoe := y1 - era * 400
  let mp := Int.fmod (m + 9) 12
  let doy := Int.fdiv (153 * mp + 2) 5 + d - 1
  let doe := yoe * 365 + Int.fdiv yoe 4 - Int.fdiv yoe 100 + doy
  era * 146097 + doe - 719468

/-- Civil date `(y, m, d)` of a count of days since 1970-01-01. -/
def civilFromDays (z : Int) : Int × Int × Int :=
  let z1 := z + 719468
  let era := Int.fdiv z1 146097
  let doe := z1 - era * 146097
  let yoe := Int.fdiv (doe - Int.fdiv doe 1460 + Int.fdiv doe 36524 - Int.fdiv doe 146096) 365
  let y := yoe + era * 400
  let doy := doe - (365 * yoe + Int.fdiv yoe 4 - Int.fdiv yoe 100)
  let mp := Int.fdiv (5 * doy + 2) 153
  let d := doy - Int.fdiv (153 * mp + 2) 5 + 1
  let m := if mp < 10 then mp + 3 else mp - 9
  (if m ≤ 2 then y + 1 else y, m, d)

/-- JavaScript `Date.prototype.getDay` on a day count: 0 = Sunday … 6 = Saturday
(1970-01-01 was a Thursday, day 4).  For the positive divisor 7, Euclidean and
floor remainders agree, matching the intended wrap-around. -/
def jsGetDay (days : Int) : Int :=
  (days + 4) % 7

/-- Day component of a minute timestamp.  For the positive divisor 1440,
Euclidean division agrees with floor division, which is the JS semantics. -/
def dayOf (t : Int) : Int :=
  t / 1440

/-- Time-of-day component (minutes past midnight) of a minute timestamp. -/
def todOf (t : Int) : Int :=
  t % 1440

/-- `Date.prototype.setDate(getDate() + k)`: advance by `k` whole days,
keeping the time of day. -/
def addDays (t k : Int) : Int :=
  t + k * 1440

/-- Timestamp of minute `tod` on day `z`. -/
def atDay (z tod : Int) : Int :=
  z * 1440 + tod

/-- JavaScript `d.setMonth(d.getMonth() + k)`: same day-of-month `k` months
later, with day-of-month overflow rolling into the following month (Jan 31 + 1
month = "Feb 31" = Mar 2/3), time of day preserved. -/
def jsSetMonthAdd (t k : Int) : Int :=
  let z := dayOf t
  let c := civilFromDays z
  let m0 := c.2.1 - 1 + k
  atDay (daysFromCivil (c.1 + Int.fdiv m0 12) (Int.fmod m0 12 + 1) c.2.2) (todOf t)

/-- JavaScript `d.setFullYear(d.getFullYear() + k)`: same month/day `k` years
later (Feb 29 in a non-leap target year rolls to Mar 1), time of day
preserved. -/
def jsSetFullYearAdd (t k : Int) : Int :=
  let z := dayOf t
  let c := civilFromDays z
  atDay (daysFromCivil (c.1 + k) c.2.1 c.2.2) (todOf t)

/-! ## Conflict checking: `app.post('/api/sessions/check-conflicts')`

The route pads the candidate window by 15 minutes of tolerance, then asks SQL
for sessions of the same trainer with `status = 'agendado'`, starting on the
same calendar day, satisfying
`start_time BETWEEN tolStart AND tolEnd OR end_time BETWEEN tolStart AND tolEnd
 OR (start_time <= start AND end_time >= end)` — `BETWEEN` bounds inclusive.
On conflict it probes `timeSlots.slice(0, 5)` (the first five half-hour slots,
06:00 … 08:00) and suggests each slot whose window of the requested duration
has a zero count under the same SQL shape, but with the *unpadded* slot window
substituted everywhere (no tolerance applied to suggestions). -/

/-- A row of the `sessions` table, restricted to the columns the
check-conflicts route reads. -/
structure SessionRow where
  trainerId : Int
  startTime : Int
  endTime : Int
  status : String
  deriving Repr, DecidableEq

/-- SQL `x BETWEEN lo AND hi` (inclusive on both ends). -/
def sqlBetween (x lo hi : Int) : Bool :=
  lo ≤ x && x ≤ hi

/-- The WHERE clause of the main conflict query of
`app.post('/api/sessions/check-conflicts')`, applied to one stored session:
same trainer, `status = 'agendado'`, same calendar day as the request, and the
three-clause window test against the candidate window `[a, b]` padded by 15
minutes of tolerance. -/
def sessionConflictsRow (trainerId dateDays a b : Int) (s : SessionRow) : Bool :=
  let toleranceStart := a - 15
  let toleranceEnd := b + 15
  s.trainerId == trainerId && s.status == "agendado" && dayOf s.startTime == dateDays &&
    (sqlBetween s.startTime toleranceStart toleranceEnd ||
     sqlBetween s.endTime toleranceStart toleranceEnd ||
     (s.startTime ≤ a && s.endTime ≥ b))

/-- The WHERE clause of the suggestion-probe query of the same route: identical
shape, but every occurrence of the window is the unpadded slot window
`[slotStart, slotEnd]` (the 15-minute tolerance is not applied here). -/
def sessionHitsSlot (trainerId dateDays slotStart slotEnd : Int) (s : SessionRow) : Bool :=
  s.trainerId == trainerId && s.status == "agendado" && dayOf s.startTime == dateDays &&
    (sqlBetween s.startTime slotStart slotEnd ||
     sqlBetween s.endTime slotStart slotEnd ||
     (s.startTime ≤ slotStart && s.endTime ≥ slotEnd))

/-- `timeSlots.slice(0, 5)` of the route: the first five entries of the
half-hour ladder, as minutes past midnight (06:00, 06:30, 07:00, 07:30,
08:00). -/
def suggestionSlots : List Int :=
  [360, 390, 420, 450, 480]

/-- The whole `app.post('/api/sessions/check-conflicts')` computation over a
supplied list of stored sessions: the conflicting rows, and (only when a
conflict was found) the suggested alternative start timestamps. -/
def checkConflictsRoute (existing : List SessionRow) (trainerId dateDays a b : Int) :
    List SessionRow × List Int :=
  let conflicts := existing.filter (sessionConflictsRow trainerId dateDays a b)
  let suggestions :=
    if conflicts.isEmpty then []
    else
      (suggestionSlots.map (atDay dateDays)).filter (fun slotStart =>
        (existing.filter (sessionHitsSlot trainerId dateDays slotStart (slotStart + (b - a)))).length == 0)
  (conflicts, suggestions)

/-! ## Recurrence expansion, version 1: `app.post('/api/sessions')`

Walks a cursor from the anchor; weekly rules walk day-by-day, emitting on the
days whose (Portuguese) weekday name is listed in `recurrenceWeekDays`, and
jump `7 * (interval - 1)` extra days whenever the cursor returns to the
anchor's weekday.  `sessionCount` is incremented once per iteration of the
loop body (for weekly: once per day walked), the loop guard is
`sessionCount < maxSessions` with `maxSessions = recurrenceEndCount` when
`endType = 'count'` and `100` otherwise, and a safety `break` fires once
`sessionCount` exceeds 365 — so the body runs exactly
`min maxSessions 366` times unless the end-date check stops it earlier, which
is how the recursion below is grounded. -/

/-- `dayNames` of the `/api/sessions` route (Portuguese). -/
def routeDayNames : List String :=
  ["domingo", "segunda", "terca", "quarta", "quinta", "sexta", "sabado"]

/-- `dayNames` used by `generateRecurrentClasses` in
`newScheduling.controller.ts` (English). -/
def ctrlDayNames : List String :=
  ["sunday", "monday", "tuesday", "wednesday", "thursday", "friday", "saturday"]

/-- `dayNames[currentDate.getDay()]`. -/
def dayNameAt (names : List String) (t : Int) : String :=
  names.getD (jsGetDay (dayOf t)).toNat ""

/-- One session descriptor pushed by the `/api/sessions` route. -/
structure RouteOcc where
  startTime : Int
  endTime : Int
  isParent : Bool
  deriving Repr, DecidableEq

/-- `recurrenceWeekDays && recurrenceWeekDays.includes(dayNames[getDay()])`. -/
def weeklyMatches (wds : Option (List String)) (current : Int) : Bool :=
  match wds with
  | some l => l.contains (dayNameAt routeDayNames current)
  | none => false

/-- Weekly cursor advance of the `/api/sessions` route: one day forward, plus
`7 * (interval - 1)` extra days when that lands back on the anchor's
weekday. -/
def weeklyNext (interval baseStart current : Int) : Int :=
  if jsGetDay (dayOf (addDays current 1)) == jsGetDay (dayOf baseStart) then
    addDays (addDays current 1) (7 * (interval - 1))
  else addDays current 1

/-- Loop body of the recurring branch of `app.post('/api/sessions')`.  The
`Nat` argument counts the remaining loop-body iterations (see above); the last
argument is `sessions.length` so far, deciding `isParent`. -/
def sessionsRouteGo (rt : String) (wds : Option (List String)) (interval : Int)
    (endDate : Option Int) (baseStart baseEnd : Int) :
    Nat → Int → Nat → List RouteOcc
  | 0, _, _ => []
  | b + 1, current, emitted =>
    if (match endDate with | some ed => decide (current > ed) | none => false) then []
    else if rt == "weekly" then
      (if weeklyMatches wds current then
        [⟨atDay (dayOf current) (todOf baseStart), atDay (dayOf current) (todOf baseEnd),
          emitted == 0⟩]
       else []) ++
        sessionsRouteGo rt wds interval endDate baseStart baseEnd b
          (weeklyNext interval baseStart current)
          (emitted + (if weeklyMatches wds current then 1 else 0))
    else if rt == "daily" then
      ⟨atDay (dayOf current) (todOf baseStart), atDay (dayOf current) (todOf baseEnd),
        emitted == 0⟩ ::
        sessionsRouteGo rt wds interval endDate baseStart baseEnd b
          (addDays current interval) (emitted + 1)
    else if rt == "monthly" then
      ⟨atDay (dayOf current) (todOf baseStart), atDay (dayOf current) (todOf baseEnd),
        emitted == 0⟩ ::
        sessionsRouteGo rt wds interval endDate baseStart baseEnd b
          (jsSetMonthAdd current interval) (emitted + 1)
    else
      sessionsRouteGo rt wds interval endDate baseStart baseEnd b current emitted

/-- The recurring branch of `app.post('/api/sessions')`: expand a recurrence
request into the list of session descriptors the route inserts.
`endDateReq` is the `recurrenceEndDate` field (read only when
`endType = 'date'`); `endCount` is `recurrenceEndCount`. -/
def sessionsRouteExpand (rt : String) (wds : Option (List String)) (interval : Int)
    (endType : String) (endDateReq : Int) (endCount : Nat)
    (baseStart baseEnd : Int) : List RouteOcc :=
  let maxSessions : Nat := if endType == "count" then endCount else 100
  let endDate : Option Int := if endType == "date" then some endDateReq else none
  sessionsRouteGo rt wds interval endDate baseStart baseEnd (min maxSessions 366) baseStart 0

/-! ## Recurrence expansion, version 2: `generateRecurrentClasses`
(`newScheduling.controller.ts`)

Walks from `agendamento.startDate` while `currentDate <= maxDate`
(`maxDate` = now + 6 months, supplied here as an argument).  For weekly rules
with `weekDays`, non-matching days advance the cursor one day without
emitting; matching days emit and then advance by `7 * interval` days.  Every
emitted class runs from the anchor's time of day to exactly one hour later
("Duração padrão de 1 hora" in the source).  The loop has no occurrence-count
safety ceiling of its own, so the recursion carries explicit fuel. -/

/-- An `agendamentosRecorrentes` record, restricted to the fields the two
expansion helpers read (`location`, `value`, `service`, `notes` are copied
verbatim into every class and are omitted here). -/
structure AgendamentoRecorrente where
  id : Int
  professorId : Int
  studentId : Int
  regrasType : String
  regrasInterval : Int
  regrasWeekDays : Option (List String)
  startDate : Int
  endDate : Option Int
  maxOccurrences : Option Nat
  active : Bool
  deriving Repr, DecidableEq

/-- A generated `aulas` row, restricted to the fields the claims need. -/
structure GenAula where
  agendamentoRecorrenteId : Option Int
  professorId : Int
  studentId : Int
  startTime : Int
  endTime : Int
  status : String
  isModified : Bool
  deriving Repr, DecidableEq

/-- Loop body of `generateRecurrentClasses`.  The emitted window is
`[cursor day + startDate's time-of-day, cursor day + (startDate + 60 min)'s
time-of-day]`: the source sets `originalEndTime` to `startDate` with
`setHours(getHours() + 1)`, i.e. the anchor start plus one hour. -/
def generateRecurrentGo (ag : AgendamentoRecorrente) (maxDate : Int) :
    Nat → Int → Nat → List GenAula
  | 0, _, _ => []
  | fuel + 1, current, occurrenceCount =>
    if current > maxDate then []
    else if (match ag.maxOccurrences with
             | some mo => decide (occurrenceCount ≥ mo)
             | none => false) then []
    else if (match ag.endDate with | some ed => decide (current > ed) | none => false) then []
    else if ag.regrasType == "weekly" &&
        (match ag.regrasWeekDays with
         | some l => !(l.contains (dayNameAt ctrlDayNames current))
         | none => false) then
      generateRecurrentGo ag maxDate fuel (addDays current 1) occurrenceCount
    else
      ⟨some ag.id, ag.professorId, ag.studentId,
        atDay (dayOf current) (todOf ag.startDate),
        atDay (dayOf current) (todOf (ag.startDate + 60)),
        "agendado", false⟩ ::
        generateRecurrentGo ag maxDate fuel
          (if ag.regrasType == "daily" then addDays current ag.regrasInterval
           else if ag.regrasType == "weekly" then addDays current (7 * ag.regrasInterval)
           else if ag.regrasType == "monthly" then jsSetMonthAdd current ag.regrasInterval
           else if ag.regrasType == "yearly" then jsSetFullYearAdd current ag.regrasInterval
           else addDays current 1)
          (occurrenceCount + 1)

/-- `generateRecurrentClasses(agendamento)` of `newScheduling.controller.ts`. -/
def generateRecurrentClasses (ag : AgendamentoRecorrente) (maxDate : Int) (fuel : Nat) :
    List GenAula :=
  generateRecurrentGo ag maxDate fuel ag.startDate 0

/-! ## Recurrence expansion, version 3: `generateClassesFromRecurrence`
(`server/routes.ts`, used by `app.post('/api/new-scheduling/recurrent')`)

`while (true)` with three breaks checked up front: `maxOccurrences` reached,
`endDate` passed, or `count > 100`.  Each iteration emits
`[currentDate, currentDate + 1 hour]` ("assuming 1 hour duration by default")
and advances per the rule type; the `switch` default arm only breaks, because
its inner weekly-with-weekDays branch requires `regras.type === 'weekly'`,
which the `'weekly'` case already captured.  `count` increments once per
iteration, so the body runs at most `min maxOccurrences 101` (or 101) times,
which grounds the recursion. -/

/-- Loop body of `generateClassesFromRecurrence`; the `Nat` argument counts
the remaining iterations permitted by the `maxOccurrences` / `count > 100`
breaks. -/
def generateClassesGo (ag : AgendamentoRecorrente) : Nat → Int → List GenAula
  | 0, _ => []
  | b + 1, current =>
    if (match ag.endDate with | some ed => decide (current > ed) | none => false) then []
    else
      ⟨some ag.id, ag.professorId, ag.studentId, current, current + 60, "agendado", false⟩ ::
        (if ag.regrasType == "daily" then
          generateClassesGo ag b (addDays current ag.regrasInterval)
         else if ag.regrasType == "weekly" then
          generateClassesGo ag b (addDays current (7 * ag.regrasInterval))
         else if ag.regrasType == "monthly" then
          generateClassesGo ag b (jsSetMonthAdd current ag.regrasInterval)
         else if ag.regrasType == "yearly" then
          generateClassesGo ag b (jsSetFullYearAdd current ag.regrasInterval)
         else [])

/-- `generateClassesFromRecurrence(agendamento)` of `server/routes.ts`. -/
def generateClassesFromRecurrence (ag : AgendamentoRecorrente) : List GenAula :=
  let budget : Nat := match ag.maxOccurrences with | some mo => min mo 101 | none => 101
  generateClassesGo ag budget ag.startDate

/-! ## Series mutation: `updateClass` (`newScheduling.controller.ts`)

When the validated body touches `startTime` or `endTime`, the new window is
checked through `storage.checkSchedulingConflicts` with the updated class's id
passed as the exclusion argument ("Excluir a própria aula da verificação");
a reported conflict yields a 409 and no write.  On an accepted time change,
`isModified` is set and — only when `originalStartTime` is still null — both
original fields are snapshotted from the stored pre-change values. -/

/-- An `aulas` row, restricted to the fields `updateClass` reads or writes. -/
structure Aula where
  id : Int
  professorId : Int
  studentId : Int
  startTime : Int
  endTime : Int
  status : String
  isModified : Bool
  originalStartTime : Option Int
  originalEndTime : Option Int
  deriving Repr, DecidableEq

/-- A validated partial update body (fields absent from the request are
`none`).  `value`, `location`, `service`, `notes` pass through `updateAula`
untouched by the logic under scrutiny and are omitted. -/
structure AulaChanges where
  startTime : Option Int
  endTime : Option Int
  professorId : Option Int
  studentId : Option Int
  status : Option String
  deriving Repr, DecidableEq

/-- `validatedData.startTime || validatedData.endTime` (both are non-empty
date strings when present, hence truthy). -/
def touchesTime (c : AulaChanges) : Bool :=
  c.startTime.isSome || c.endTime.isSome

/-- Modelled from the spec: `storage.checkSchedulingConflicts` is not among
the sources here — only its call sites in `newScheduling.controller.ts` are.
Per §4.2 of the spec, a conflict is an existing instance of the same professor
(or the same student) whose `[start, end)` window meets the candidate's
`[start - tolerance, end + tolerance)` window under the half-open rule
`a1 < b2 AND b1 < a2` (tolerance 15 minutes), whose status is not cancelled,
and which is not the excluded instance; the first such instance is returned. -/
def checkSchedulingConflicts (existing : List Aula) (professorId studentId startT endT : Int)
    (excludeAulaId : Option Int) : Option Aula :=
  existing.find? (fun e =>
    (match excludeAulaId with | some i => e.id != i | none => true) &&
    (e.professorId == professorId || e.studentId == studentId) &&
    e.status != "cancelado" &&
    decide (startT - 15 < e.endTime) && decide (e.startTime < endT + 15))

/-- The write `updateClass` performs once validation and the conflict check
have passed: fields present in the body overwrite the stored ones; when the
body touches the time window, `isModified` is set to `true` and — only if
`originalStartTime` was still null — both original fields are snapshotted
from the stored pre-change values. -/
def applyAcceptedUpdate (existingAula : Aula) (c : AulaChanges) : Aula :=
  let merged : Aula :=
    { existingAula with
      startTime := c.startTime.getD existingAula.startTime
      endTime := c.endTime.getD existingAula.endTime
      professorId := c.professorId.getD existingAula.professorId
      studentId := c.studentId.getD existingAula.studentId
      status := c.status.getD existingAula.status }
  if touchesTime c then
    { merged with
      isModified := true
      originalStartTime :=
        if existingAula.originalStartTime = none then some existingAula.startTime
        else existingAula.originalStartTime
      originalEndTime :=
        if existingAula.originalStartTime = none then some existingAula.endTime
        else existingAula.originalEndTime }
  else merged

/-- Outcome of `PATCH /api/new-scheduling/... updateClass`. -/
inductive UpdateClassResult where
  | notFound
  | conflictDetected (conflict : Aula)
  | ok (updated : Aula)
  deriving Repr, DecidableEq

/-- `updateClass` of `newScheduling.controller.ts` over an in-memory store:
look the class up; if the body touches the time window, run the conflict check
on the merged window with the class's own id excluded (`aulaId` as the last
argument), rejecting with 409 on conflict; otherwise write the update.
(JS `validatedData.professorId || existingAula.professorId` falls back on a
missing field; ids are positive serials, so `Option.getD` is faithful.) -/
def updateClass (store : List Aula) (aulaId : Int) (c : AulaChanges) :
    UpdateClassResult × List Aula :=
  match store.find? (fun a => a.id == aulaId) with
  | none => (.notFound, store)
  | some existingAula =>
    if touchesTime c then
      let startTime := c.startTime.getD existingAula.startTime
      let endTime := c.endTime.getD existingAula.endTime
      let professorId := c.professorId.getD existingAula.professorId
      let studentId := c.studentId.getD existingAula.studentId
      match checkSchedulingConflicts store professorId studentId startTime endTime (some aulaId) with
      | some conf => (.conflictDetected conf, store)
      | none =>
        let updated := applyAcceptedUpdate existingAula c
        (.ok updated, store.map (fun a => if a.id == aulaId then updated else a))
    else
      let updated := applyAcceptedUpdate existingAula c
      (.ok updated, store.map (fun a => if a.id == aulaId then updated else a))

/-! ## Creating a recurring schedule: `createRecurrentScheduling`
(`newScheduling.controller.ts`)

After the professor and student lookups succeed, the recurrence-rule record is
persisted (`storage.createAgendamentoRecorrente`), the instances are expanded,
every instance is conflict-checked, and only if no conflict was found are the
instances persisted (`storage.createMultipleAulas`); on conflicts the route
answers 409 — after the rule record has already been written, with no
rollback.  The conflict check is `storage.checkSchedulingConflicts`, whose
body is not among the sources; it enters the model as an arbitrary function
`check`, so the theorems below hold for every possible checker semantics. -/

/-- The durable store the controller manipulates. -/
structure SchedulerState where
  agendamentos : List AgendamentoRecorrente
  aulas : List GenAula
  deriving Repr, DecidableEq

/-- The body of `POST /api/new-scheduling/recurrent` after Zod validation
(descriptive fields omitted as before). -/
structure AgendamentoInput where
  professorId : Int
  studentId : Int
  regrasType : String
  regrasInterval : Int
  regrasWeekDays : Option (List String)
  startDate : Int
  endDate : Option Int
  maxOccurrences : Option Nat
  active : Bool
  deriving Repr, DecidableEq

/-- `storage.createAgendamentoRecorrente`: the persisted rule record, with the
store-assigned id. -/
def mkAgendamento (newId : Int) (v : AgendamentoInput) : AgendamentoRecorrente :=
  ⟨newId, v.professorId, v.studentId, v.regrasType, v.regrasInterval, v.regrasWeekDays,
    v.startDate, v.endDate, v.maxOccurrences, v.active⟩

/-- HTTP outcome of `createRecurrentScheduling`. -/
inductive CreateRecurrentResponse where
  | badRequest
  | conflictDetected (conflicts : List (Int × String))
  | created (agendamento : AgendamentoRecorrente) (aulas : List GenAula)
  deriving Repr, DecidableEq

/-- `createRecurrentScheduling` over an in-memory store.  `professorValid` /
`studentValid` stand for the `storage.getUserById` / `storage.getLeadById`
lookups; `check` is the (externally stored) conflict checker, returning a
conflict description for a candidate class or `none`; `newId` is the id the
store assigns to the rule record; `maxDate` is now + 6 months. -/
def createRecurrentScheduling (st : SchedulerState) (v : AgendamentoInput) (newId : Int)
    (professorValid studentValid : Bool) (maxDate : Int) (fuel : Nat)
    (check : GenAula → Option String) : CreateRecurrentResponse × SchedulerState :=
  if !professorValid || !studentValid then (.badRequest, st)
  else
    let agendamento := mkAgendamento newId v
    let st1 : SchedulerState := { st with agendamentos := st.agendamentos ++ [agendamento] }
    let aulas := generateRecurrentClasses agendamento maxDate fuel
    let conflicts := aulas.filterMap (fun a => (check a).map (fun s => (a.startTime, s)))
    if !conflicts.isEmpty then
      (.conflictDetected conflicts, st1)
    else
      (.created agendamento aulas, { st1 with aulas := st1.aulas ++ aulas })

/-! ## Helper lemmas -/

theorem todOf_nonneg (t : Int) : 0 ≤ todOf t := by
  unfold todOf
  omega

theorem todOf_lt (t : Int) : todOf t < 1440 := by
  unfold todOf
  omega

theorem dayOf_atDay (z tod : Int) (h0 : 0 ≤ tod) (h1 : tod < 1440) :
    dayOf (atDay z tod) = z := by
  unfold dayOf atDay
  omega

theorem todOf_atDay (z tod : Int) (h0 : 0 ≤ tod) (h1 : tod < 1440) :
    todOf (atDay z tod) = tod := by
  unfold todOf atDay
  omega

theorem dayOf_mono {s t : Int} (h : s ≤ t) : dayOf s ≤ dayOf t := by
  unfold dayOf
  omega

/-! ## Claim C1: what the conflict check reports -/

/-- The conflict condition exactly as claim C1 states it: same professor, the
existing instance's status is not cancelled (a completed instance still counts),
and the candidate window `[a - 15, b + 15)` overlaps the existing `[start, end)`
under the half-open rule `a1 < b2 AND b1 < a2`. -/
abbrev claimC1Conflict (trainerId a b : Int) (s : SessionRow) : Prop :=
  s.trainerId = trainerId ∧ s.status ≠ "cancelado" ∧
    a - 15 < s.endTime ∧ s.startTime < b + 15

/-- A completed (`'concluido'`) session of professor 1 occupying exactly the
candidate window 09:00–10:00 on 2024-01-02. -/
def c1Row : SessionRow :=
  ⟨1, atDay (daysFromCivil 2024 1 2) 540, atDay (daysFromCivil 2024 1 2) 600, "concluido"⟩

/-- **C1, counterexample.**  The route's conflict query keeps only rows with
`status = 'agendado'`, so a *completed* instance occupying exactly the
candidate's window is not reported, although the claim (status "not
cancelled") requires a conflict: the claimed if-and-only-if fails. -/
theorem C1_counterexample :
    ¬ ((sessionConflictsRow 1 (daysFromCivil 2024 1 2) (atDay (daysFromCivil 2024 1 2) 540)
          (atDay (daysFromCivil 2024 1 2) 600) c1Row = true) ↔
        claimC1Conflict 1 (atDay (daysFromCivil 2024 1 2) 540)
          (atDay (daysFromCivil 2024 1 2) 600) c1Row) := by
  decide

/-- **C1, amended.**  For a well-formed existing row and candidate window, the
check-conflicts route reports a conflict iff the existing instance belongs to
the same professor, its status is exactly `'agendado'` (so completed,
in-progress, rescheduled and cancelled instances are all ignored), it starts
on the requested calendar day, and its closed window `[start, end]` meets the
candidate's closed tolerance-padded window `[a - 15, b + 15]` (inclusive
bounds, per SQL `BETWEEN`). -/
theorem C1_amended (trainerId dateDays a b : Int) (s : SessionRow)
    (hs : s.startTime ≤ s.endTime) (hab : a ≤ b) :
    sessionConflictsRow trainerId dateDays a b s = true ↔
      (s.trainerId = trainerId ∧ s.status = "agendado" ∧ dayOf s.startTime = dateDays ∧
        s.startTime ≤ b + 15 ∧ a - 15 ≤ s.endTime) := by
  simp only [sessionConflictsRow, sqlBetween, Bool.and_eq_true, Bool.or_eq_true, beq_iff_eq,
    decide_eq_true_eq]
  constructor
  · rintro ⟨⟨⟨h1, h2⟩, h3⟩, h4⟩
    exact ⟨h1, h2, h3, by omega, by omega⟩
  · rintro ⟨h1, h2, h3, h4, h5⟩
    exact ⟨⟨⟨h1, h2⟩, h3⟩, by omega⟩

/-- Witness for `C1_amended` at a concrete overlapping pair. -/
theorem C1_amended_witness :
    sessionConflictsRow 1 (daysFromCivil 2024 1 2) (atDay (daysFromCivil 2024 1 2) 540)
        (atDay (daysFromCivil 2024 1 2) 600)
        ⟨1, atDay (daysFromCivil 2024 1 2) 550, atDay (daysFromCivil 2024 1 2) 610,
          "agendado"⟩ = true ↔
      (SessionRow.trainerId ⟨1, atDay (daysFromCivil 2024 1 2) 550,
          atDay (daysFromCivil 2024 1 2) 610, "agendado"⟩ = 1 ∧
        SessionRow.status ⟨1, atDay (daysFromCivil 2024 1 2) 550,
          atDay (daysFromCivil 2024 1 2) 610, "agendado"⟩ = "agendado" ∧
        dayOf (atDay (daysFromCivil 2024 1 2) 550) = daysFromCivil 2024 1 2 ∧
        atDay (daysFromCivil 2024 1 2) 550 ≤ atDay (daysFromCivil 2024 1 2) 600 + 15 ∧
        atDay (daysFromCivil 2024 1 2) 540 - 15 ≤ atDay (daysFromCivil 2024 1 2) 610) :=
  C1_amended 1 (daysFromCivil 2024 1 2) (atDay (daysFromCivil 2024 1 2) 540)
    (atDay (daysFromCivil 2024 1 2) 600)
    ⟨1, atDay (daysFromCivil 2024 1 2) 550, atDay (daysFromCivil 2024 1 2) 610, "agendado"⟩
    (by decide) (by decide)

/-! ## Claim C2: weekly expansion with a weekday set -/

/-- The rule of claim C2 for `generateRecurrentClasses`: weekly, interval 1,
weekDays = {monday, wednesday}, anchored Monday 2024-01-01 09:00, restricted to
the 4-week window ending 2024-01-28. -/
def c2Agendamento : AgendamentoRecorrente :=
  ⟨7, 1, 2, "weekly", 1, some ["monday", "wednesday"], atDay (daysFromCivil 2024 1 1) 540,
    some (atDay (daysFromCivil 2024 1 28) 0), none, true⟩

/-- The same 4-week Monday/Wednesday expansion through the `/api/sessions`
route (Portuguese weekday names, `endType = 'date'`). -/
def c2RouteExpand : List RouteOcc :=
  sessionsRouteExpand "weekly" (some ["segunda", "quarta"]) 1 "date"
    (atDay (daysFromCivil 2024 1 28) 0) 0 (atDay (daysFromCivil 2024 1 1) 540)
    (atDay (daysFromCivil 2024 1 1) 600)

/-- **C2, evaluation at the failing input.**  Over the 4-week window
2024-01-01 … 2024-01-28 with `weekDays = {monday, wednesday}`, interval 1:
`generateRecurrentClasses` emits only 4 occurrences, all Mondays — after each
emission it jumps `7 * interval` days, so the Wednesdays are never reached —
while the `/api/sessions` route's day-by-day walk emits the 8 the claim
demands (each a Monday (1) or Wednesday (3), in increasing order). -/
theorem C2_evaluation :
    (generateRecurrentClasses c2Agendamento (atDay (daysFromCivil 2024 7 1) 0) 200).length = 4 ∧
    (∀ a ∈ generateRecurrentClasses c2Agendamento (atDay (daysFromCivil 2024 7 1) 0) 200,
      jsGetDay (dayOf a.startTime) = 1) ∧
    c2RouteExpand.length = 8 ∧
    (∀ a ∈ c2RouteExpand,
      jsGetDay (dayOf a.startTime) = 1 ∨ jsGetDay (dayOf a.startTime) = 3) ∧
    List.Pairwise (fun x y => x.startTime < y.startTime) c2RouteExpand := by
  decide

/-! ## Claim C3: monthly expansion and short months -/

/-- The rule of claim C3: monthly, interval 1, anchored 2024-01-31 09:00, two
occurrences. -/
def c3Agendamento : AgendamentoRecorrente :=
  ⟨8, 1, 2, "monthly", 1, none, atDay (daysFromCivil 2024 1 31) 540, none, some 2, true⟩

/-- **C3, evaluation at the failing input.**  From anchor day-of-month 31
(2024-01-31), both monthly expansions emit the second occurrence on
2024-03-02 — JavaScript `setMonth` normalizes the nonexistent "February 31"
into March — rather than clamping to 2024-02-29 as the claim requires;
February receives no occurrence. -/
theorem C3_evaluation :
    ((generateRecurrentClasses c3Agendamento (atDay (daysFromCivil 2024 7 1) 0) 40).map
        (fun a => dayOf a.startTime) =
      [daysFromCivil 2024 1 31, daysFromCivil 2024 3 2]) ∧
    ((sessionsRouteExpand "monthly" none 1 "count" 0 2 (atDay (daysFromCivil 2024 1 31) 540)
        (atDay (daysFromCivil 2024 1 31) 600)).map (fun a => dayOf a.startTime) =
      [daysFromCivil 2024 1 31, daysFromCivil 2024 3 2]) ∧
    daysFromCivil 2024 3 2 ≠ daysFromCivil 2024 2 29 := by
  decide

/-! ## Claim C4: occurrence windows versus the anchor window -/

/-- Every class emitted by `generateClassesFromRecurrence` lasts exactly 60
minutes, whatever the rule says. -/
theorem generateClassesGo_duration (ag : AgendamentoRecorrente) :
    ∀ (b : Nat) (current : Int), ∀ a ∈ generateClassesGo ag b current,
      a.endTime = a.startTime + 60 := by
  intro b
  induction b with
  | zero =>
    intro current a ha
    simp [generateClassesGo] at ha
  | succ n ih =>
    intro current a ha
    simp only [generateClassesGo] at ha
    split at ha
    · simp at ha
    · rcases List.mem_cons.mp ha with h | h
      · subst h
        rfl
      · split at h
        · exact ih _ a h
        · split at h
          · exact ih _ a h
          · split at h
            · exact ih _ a h
            · split at h
              · exact ih _ a h
              · simp at h

/-- Every class emitted by `generateRecurrentGo` starts at its own date with
the anchor's start time-of-day, ends at its own date with the time-of-day one
hour after the anchor's start, and starts no later than the last minute of the
horizon day `maxDate`. -/
theorem generateRecurrentGo_windows (ag : AgendamentoRecorrente) (maxDate : Int) :
    ∀ (fuel : Nat) (current : Int) (cnt : Nat),
      ∀ a ∈ generateRecurrentGo ag maxDate fuel current cnt,
        a.startTime = atDay (dayOf a.startTime) (todOf ag.startDate) ∧
        a.endTime = atDay (dayOf a.startTime) (todOf (ag.startDate + 60)) ∧
        a.startTime ≤ atDay (dayOf maxDate) 1439 := by
  intro fuel
  induction fuel with
  | zero =>
    intro current cnt a ha
    simp [generateRecurrentGo] at ha
  | succ n ih =>
    intro current cnt a ha
    simp only [generateRecurrentGo] at ha
    split at ha
    · simp at ha
    · split at ha
      · simp at ha
      · split at ha
        · simp at ha
        · split at ha
          · exact ih _ _ a ha
          · rcases List.mem_cons.mp ha with h | h
            · subst h
              have hd : dayOf (atDay (dayOf current) (todOf ag.startDate)) = dayOf current :=
                dayOf_atDay _ _ (todOf_nonneg _) (todOf_lt _)
              refine ⟨?_, ?_, ?_⟩
              · show atDay (dayOf current) (todOf ag.startDate) =
                  atDay (dayOf (atDay (dayOf current) (todOf ag.startDate))) (todOf ag.startDate)
                rw [hd]
              · show atDay (dayOf current) (todOf (ag.startDate + 60)) =
                  atDay (dayOf (atDay (dayOf current) (todOf ag.startDate)))
                    (todOf (ag.startDate + 60))
                rw [hd]
              · show atDay (dayOf current) (todOf ag.startDate) ≤ atDay (dayOf maxDate) 1439
                have hb : current ≤ maxDate := by omega
                have hm := dayOf_mono hb
                have h0 := todOf_nonneg ag.startDate
                have h1 := todOf_lt ag.startDate
                simp only [atDay]
                omega
            · exact ih _ _ a h

/-- Claim C4's property of an expansion output, for a rule whose anchor window
ends at time-of-day `anchorEndTod`: every occurrence ends at its own date
combined with the anchor's end time-of-day. -/
abbrev claimC4EndTimes (anchorEndTod : Int) (out : List GenAula) : Prop :=
  ∀ a ∈ out, a.endTime = atDay (dayOf a.startTime) anchorEndTod

/-- The rule of claim C4's counterexample: a single daily occurrence anchored
2024-01-02 09:00.  The stored record carries no end time-of-day at all; the
claim's anchor window is taken as 09:00–11:00, i.e. end time-of-day 660. -/
def c4Agendamento : AgendamentoRecorrente :=
  ⟨9, 1, 2, "daily", 1, none, atDay (daysFromCivil 2024 1 2) 540, none, some 1, true⟩

/-- **C4, counterexample.**  For a rule whose anchor window is 09:00–11:00,
`generateClassesFromRecurrence` emits an occurrence ending at 10:00 — one hour
after the start, the hard-coded default duration — not at the anchor's end
time-of-day 11:00 as the claim requires. -/
theorem C4_counterexample :
    ¬ claimC4EndTimes 660 (generateClassesFromRecurrence c4Agendamento) := by
  decide

/-- **C4, amended.**  Every occurrence starts at its own date combined with
the anchor's start time-of-day, but ends exactly 60 minutes later — a fixed
default duration ("Duração padrão de 1 hora" / "assuming 1 hour duration by
default"); no anchor end time-of-day exists in the record or is consulted. -/
theorem C4_amended (ag : AgendamentoRecorrente) (maxDate : Int) (fuel : Nat) :
    (∀ a ∈ generateClassesFromRecurrence ag, a.endTime = a.startTime + 60) ∧
    (∀ a ∈ generateRecurrentClasses ag maxDate fuel,
      a.startTime = atDay (dayOf a.startTime) (todOf ag.startDate) ∧
      a.endTime = atDay (dayOf a.startTime) (todOf (ag.startDate + 60))) := by
  constructor
  · intro a ha
    exact generateClassesGo_duration ag _ _ a ha
  · intro a ha
    exact ⟨(generateRecurrentGo_windows ag maxDate fuel _ _ a ha).1,
      (generateRecurrentGo_windows ag maxDate fuel _ _ a ha).2.1⟩

/-- The single class `generateClassesFromRecurrence` emits for
`c4Agendamento`. -/
def c4Occ : GenAula :=
  ⟨some 9, 1, 2, atDay (daysFromCivil 2024 1 2) 540, atDay (daysFromCivil 2024 1 2) 540 + 60,
    "agendado", false⟩

/-- Witness for `C4_amended` at the concrete rule and its emitted class. -/
theorem C4_amended_witness :
    c4Occ ∈ generateClassesFromRecurrence c4Agendamento ∧
      c4Occ.endTime = c4Occ.startTime + 60 :=
  ⟨by decide, (C4_amended c4Agendamento 0 0).1 c4Occ (by decide)⟩

/-! ## Claim C5: termination and horizon bounds -/

/-- The `/api/sessions` loop body runs at most its iteration budget, emitting
at most one session per iteration. -/
theorem sessionsRouteGo_length (rt : String) (wds : Option (List String)) (interval : Int)
    (endDate : Option Int) (baseStart baseEnd : Int) :
    ∀ (b : Nat) (current : Int) (emitted : Nat),
      (sessionsRouteGo rt wds interval endDate baseStart baseEnd b current emitted).length ≤ b := by
  intro b
  induction b with
  | zero =>
    intro current emitted
    simp [sessionsRouteGo]
  | succ n ih =>
    intro current emitted
    simp only [sessionsRouteGo]
    split
    · simp
    · split
      · by_cases hw : weeklyMatches wds current
        · simp only [hw, if_true, List.length_append, List.length_singleton]
          have h := ih (weeklyNext interval baseStart current) (emitted + 1)
          omega
        · simp only [Bool.not_eq_true] at hw
          simp only [hw, Bool.false_eq_true, if_false, List.nil_append]
          have h := ih (weeklyNext interval baseStart current) (emitted + 0)
          omega
      · split
        · simp only [List.length_cons]
          exact Nat.succ_le_succ (ih _ _)
        · split
          · simp only [List.length_cons]
            exact Nat.succ_le_succ (ih _ _)
          · exact Nat.le_succ_of_le (ih _ _)

/-- `generateClassesFromRecurrence`'s loop body emits at most one class per
permitted iteration. -/
theorem generateClassesGo_length (ag : AgendamentoRecorrente) :
    ∀ (b : Nat) (current : Int), (generateClassesGo ag b current).length ≤ b := by
  intro b
  induction b with
  | zero =>
    intro current
    simp [generateClassesGo]
  | succ n ih =>
    intro current
    simp only [generateClassesGo]
    split
    · simp
    · simp only [List.length_cons]
      split
      · exact Nat.succ_le_succ (ih _)
      · split
        · exact Nat.succ_le_succ (ih _)
        · split
          · exact Nat.succ_le_succ (ih _)
          · split
            · exact Nat.succ_le_succ (ih _)
            · simp

/-- Claim C5's horizon property, for an `endType = never` expansion anchored
at `anchor`: at most 365 occurrences and — reading "roughly 6 months of
projection" very generously as a full year — none starting more than 366 days
past the anchor. -/
abbrev claimC5Horizon (anchor : Int) (out : List RouteOcc) : Prop :=
  out.length ≤ 365 ∧ ∀ a ∈ out, a.startTime ≤ anchor + 366 * 1440

/-- **C5, counterexample.**  A monthly rule with `endType = 'never'` through
the `/api/sessions` route emits 100 occurrences (the default `maxSessions`),
one per month — the last one starts on 2032-04-01, more than eight years past
the 2024-01-01 anchor, so the route has no 6-month projection cap at all. -/
theorem C5_counterexample :
    ¬ claimC5Horizon (atDay (daysFromCivil 2024 1 1) 540)
      (sessionsRouteExpand "monthly" none 1 "never" 0 0
        (atDay (daysFromCivil 2024 1 1) 540) (atDay (daysFromCivil 2024 1 1) 600)) := by
  decide

/-- **C5, amended.**  All three expansions do terminate with a hard occurrence
ceiling — at most 366 sessions for the `/api/sessions` route (the
`sessionCount > 365` safety break), at most 101 classes for
`generateClassesFromRecurrence` (the `count > 100` break) — and
`generateRecurrentClasses` alone enforces the 6-month projection horizon: all
its classes start within the horizon day `maxDate` (= now + 6 months).  The
two route expansions have no projection cap, only the occurrence count. -/
theorem C5_amended (rt : String) (wds : Option (List String)) (interval : Int)
    (endType : String) (endDateReq : Int) (endCount : Nat) (baseStart baseEnd : Int)
    (ag : AgendamentoRecorrente) (maxDate : Int) (fuel : Nat) :
    (sessionsRouteExpand rt wds interval endType endDateReq endCount baseStart baseEnd).length
        ≤ 366 ∧
    (generateClassesFromRecurrence ag).length ≤ 101 ∧
    ∀ a ∈ generateRecurrentClasses ag maxDate fuel,
      a.startTime ≤ atDay (dayOf maxDate) 1439 := by
  refine ⟨?_, ?_, ?_⟩
  · simp only [sessionsRouteExpand]
    exact le_trans (sessionsRouteGo_length _ _ _ _ _ _ _ _ _) (Nat.min_le_right _ _)
  · simp only [generateClassesFromRecurrence]
    refine le_trans (generateClassesGo_length _ _ _) ?_
    cases ag.maxOccurrences <;> simp [Nat.min_le_right]
  · intro a ha
    exact (generateRecurrentGo_windows ag maxDate fuel _ _ a ha).2.2

/-- The rule used by `C5_amended`'s witness: a single daily class anchored
2024-02-01 08:00, horizon 2024-08-01. -/
def c5Agendamento : AgendamentoRecorrente :=
  ⟨11, 3, 4, "daily", 1, none, atDay (daysFromCivil 2024 2 1) 480, none, some 1, true⟩

/-- The single class `generateRecurrentClasses` emits for `c5Agendamento`. -/
def c5Occ : GenAula :=
  ⟨some 11, 3, 4, atDay (daysFromCivil 2024 2 1) 480, atDay (daysFromCivil 2024 2 1) 540,
    "agendado", false⟩

/-- Witness for `C5_amended` at concrete inputs. -/
theorem C5_amended_witness :
    (sessionsRouteExpand "daily" none 1 "never" 0 0 (atDay (daysFromCivil 2024 2 1) 480)
        (atDay (daysFromCivil 2024 2 1) 540)).length ≤ 366 ∧
    (generateClassesFromRecurrence c5Agendamento).length ≤ 101 ∧
    c5Occ.startTime ≤ atDay (dayOf (atDay (daysFromCivil 2024 8 1) 0)) 1439 :=
  ⟨(C5_amended "daily" none 1 "never" 0 0 (atDay (daysFromCivil 2024 2 1) 480)
      (atDay (daysFromCivil 2024 2 1) 540) c5Agendamento (atDay (daysFromCivil 2024 8 1) 0) 20).1,
   (C5_amended "daily" none 1 "never" 0 0 (atDay (daysFromCivil 2024 2 1) 480)
      (atDay (daysFromCivil 2024 2 1) 540) c5Agendamento (atDay (daysFromCivil 2024 8 1) 0) 20).2.1,
   (C5_amended "daily" none 1 "never" 0 0 (atDay (daysFromCivil 2024 2 1) 480)
      (atDay (daysFromCivil 2024 2 1) 540) c5Agendamento (atDay (daysFromCivil 2024 8 1) 0) 20).2.2
     c5Occ (by decide)⟩

/-! ## Claim C6: the divergence snapshot is taken once -/

/-- Once a snapshot has been taken (`originalStartTime` is non-null) and the
instance is flagged modified, any further accepted update — time change or
not — preserves both original fields and the flag: the snapshot guard tests
`originalStartTime` for null. -/
theorem applyAcceptedUpdate_preserves (a : Aula) (c : AulaChanges) (x y : Int)
    (hx : a.originalStartTime = some x) (hy : a.originalEndTime = some y)
    (hm : a.isModified = true) :
    (applyAcceptedUpdate a c).originalStartTime = some x ∧
    (applyAcceptedUpdate a c).originalEndTime = some y ∧
    (applyAcceptedUpdate a c).isModified = true := by
  unfold applyAcceptedUpdate
  by_cases ht : touchesTime c
  · simp [ht, hx, hy]
  · simp [ht, hx, hy, hm]

/-- Folding any further accepted updates over a snapshotted, flagged instance
changes neither original field nor the flag. -/
theorem foldl_preserves_snapshot (cs : List AulaChanges) :
    ∀ (a : Aula) (x y : Int), a.originalStartTime = some x → a.originalEndTime = some y →
      a.isModified = true →
      (cs.foldl applyAcceptedUpdate a).originalStartTime = some x ∧
      (cs.foldl applyAcceptedUpdate a).originalEndTime = some y ∧
      (cs.foldl applyAcceptedUpdate a).isModified = true := by
  induction cs with
  | nil =>
    intro a x y hx hy hm
    exact ⟨hx, hy, hm⟩
  | cons c cs ih =>
    intro a x y hx hy hm
    simp only [List.foldl_cons]
    obtain ⟨h1, h2, h3⟩ := applyAcceptedUpdate_preserves a c x y hx hy hm
    exact ih _ x y h1 h2 h3

/-- The first accepted time change on a never-diverged instance flags it and
snapshots both pre-change times. -/
theorem applyAcceptedUpdate_first (a : Aula) (c : AulaChanges)
    (h0 : a.originalStartTime = none) (ht : touchesTime c = true) :
    (applyAcceptedUpdate a c).originalStartTime = some a.startTime ∧
    (applyAcceptedUpdate a c).originalEndTime = some a.endTime ∧
    (applyAcceptedUpdate a c).isModified = true := by
  unfold applyAcceptedUpdate
  simp [ht, h0]

/-- **C6.**  For an instance that has never diverged (`originalStartTime`
null), an accepted time change followed by any sequence of further accepted
updates leaves the instance flagged `isModified` with both original fields
non-null and equal to the pre-first-divergence times: the snapshot is taken
exactly once and never overwritten. -/
theorem C6_snapshot (a : Aula) (c : AulaChanges) (cs : List AulaChanges)
    (h0 : a.originalStartTime = none) (ht : touchesTime c = true) :
    ((c :: cs).foldl applyAcceptedUpdate a).isModified = true ∧
    ((c :: cs).foldl applyAcceptedUpdate a).originalStartTime = some a.startTime ∧
    ((c :: cs).foldl applyAcceptedUpdate a).originalEndTime = some a.endTime := by
  simp only [List.foldl_cons]
  obtain ⟨h1, h2, h3⟩ := applyAcceptedUpdate_first a c h0 ht
  obtain ⟨g1, g2, g3⟩ := foldl_preserves_snapshot cs _ _ _ h1 h2 h3
  exact ⟨g3, g1, g2⟩

/-- A never-diverged stored class: 2024-01-02 09:00–10:00. -/
def c6Aula : Aula :=
  ⟨21, 1, 2, atDay (daysFromCivil 2024 1 2) 540, atDay (daysFromCivil 2024 1 2) 600,
    "agendado", false, none, none⟩

/-- First time change: move to 11:00–12:00. -/
def c6Change1 : AulaChanges :=
  ⟨some (atDay (daysFromCivil 2024 1 2) 660), some (atDay (daysFromCivil 2024 1 2) 720),
    none, none, none⟩

/-- Second time change: move the start again, to 13:00. -/
def c6Change2 : AulaChanges :=
  ⟨some (atDay (daysFromCivil 2024 1 2) 780), none, none, none, none⟩

/-- Witness for `C6_snapshot`: two successive accepted time changes. -/
theorem C6_snapshot_witness :
    ((c6Change1 :: [c6Change2]).foldl applyAcceptedUpdate c6Aula).isModified = true ∧
    ((c6Change1 :: [c6Change2]).foldl applyAcceptedUpdate c6Aula).originalStartTime =
      some c6Aula.startTime ∧
    ((c6Change1 :: [c6Change2]).foldl applyAcceptedUpdate c6Aula).originalEndTime =
      some c6Aula.endTime :=
  C6_snapshot c6Aula c6Change1 [c6Change2] (by decide) (by decide)

/-! ## Claim C7: moving one instance is conflict-guarded -/

/-- **C7.**  When an update touches the time window and the conflict checker —
run on the merged window with the moved instance's own id excluded — reports a
conflict, `updateClass` answers with that conflict and leaves the store
untouched; and the reported conflict is never the moved instance itself. -/
theorem C7_reject_unchanged (store : List Aula) (aulaId : Int) (c : AulaChanges) (a conf : Aula)
    (hfind : store.find? (fun x => x.id == aulaId) = some a)
    (htouch : touchesTime c = true)
    (hconf : checkSchedulingConflicts store (c.professorId.getD a.professorId)
        (c.studentId.getD a.studentId) (c.startTime.getD a.startTime)
        (c.endTime.getD a.endTime) (some aulaId) = some conf) :
    updateClass store aulaId c = (.conflictDetected conf, store) ∧ conf.id ≠ aulaId := by
  constructor
  · unfold updateClass
    rw [hfind]
    simp [htouch, hconf]
  · unfold checkSchedulingConflicts at hconf
    have h := List.find?_some hconf
    simp only [Bool.and_eq_true] at h
    have h1 := h.1.1.1.1
    simp only [bne_iff_ne] at h1
    exact h1

/-- Store for `C7_reject_unchanged`'s witness: class 31 (09:00–10:00) and
class 32 (10:30–11:30), same professor. -/
def c7Store : List Aula :=
  [⟨31, 1, 2, atDay (daysFromCivil 2024 1 2) 540, atDay (daysFromCivil 2024 1 2) 600,
     "agendado", false, none, none⟩,
   ⟨32, 1, 3, atDay (daysFromCivil 2024 1 2) 630, atDay (daysFromCivil 2024 1 2) 690,
     "agendado", false, none, none⟩]

/-- Attempted move of class 31 onto 10:30–11:30, colliding with class 32. -/
def c7Change : AulaChanges :=
  ⟨some (atDay (daysFromCivil 2024 1 2) 630), some (atDay (daysFromCivil 2024 1 2) 690),
    none, none, none⟩

/-- Witness for `C7_reject_unchanged`: the colliding move of class 31 is
rejected with class 32 as the conflict and the store is unchanged. -/
theorem C7_reject_unchanged_witness :
    updateClass c7Store 31 c7Change =
      (.conflictDetected ⟨32, 1, 3, atDay (daysFromCivil 2024 1 2) 630,
        atDay (daysFromCivil 2024 1 2) 690, "agendado", false, none, none⟩, c7Store) ∧
    Aula.id ⟨32, 1, 3, atDay (daysFromCivil 2024 1 2) 630, atDay (daysFromCivil 2024 1 2) 690,
      "agendado", false, none, none⟩ ≠ 31 :=
  C7_reject_unchanged c7Store 31 c7Change
    ⟨31, 1, 2, atDay (daysFromCivil 2024 1 2) 540, atDay (daysFromCivil 2024 1 2) 600,
      "agendado", false, none, none⟩
    ⟨32, 1, 3, atDay (daysFromCivil 2024 1 2) 630, atDay (daysFromCivil 2024 1 2) 690,
      "agendado", false, none, none⟩
    (by decide) (by decide) (by decide)

/-! ## Claims C8 and C10: what one rule-creation request persists -/

/-- **C8.**  If any candidate class of the expansion batch fails conflict
validation — for any conflict-checker semantics whatsoever — then
`createRecurrentScheduling` answers 409 and persists none of the batch: the
stored classes are exactly the ones from before the request. -/
theorem C8_atomic_batch (st : SchedulerState) (v : AgendamentoInput) (newId : Int)
    (maxDate : Int) (fuel : Nat) (check : GenAula → Option String) (a : GenAula)
    (hmem : a ∈ generateRecurrentClasses (mkAgendamento newId v) maxDate fuel)
    (hconf : check a ≠ none) :
    (createRecurrentScheduling st v newId true true maxDate fuel check).2.aulas = st.aulas ∧
    ∃ cl, (createRecurrentScheduling st v newId true true maxDate fuel check).1 =
      CreateRecurrentResponse.conflictDetected cl := by
  have hne : (generateRecurrentClasses (mkAgendamento newId v) maxDate fuel).filterMap
      (fun a => (check a).map (fun s => (a.startTime, s))) ≠ [] := by
    intro hnil
    rw [List.filterMap_eq_nil_iff] at hnil
    have hnone := hnil a hmem
    rcases h : check a with _ | s
    · exact hconf h
    · rw [h] at hnone
      simp at hnone
  have hie : ((generateRecurrentClasses (mkAgendamento newId v) maxDate fuel).filterMap
      (fun a => (check a).map (fun s => (a.startTime, s)))).isEmpty = false := by
    rw [List.isEmpty_eq_false]
    exact hne
  unfold createRecurrentScheduling
  simp [hie]

/-- **C10.**  On the same conflict path, the recurrence-rule record has
already been persisted and is not rolled back: the response is 409, the
(active) rule record sits in the store, and no stored class references it. -/
theorem C10_rule_persisted (st : SchedulerState) (v : AgendamentoInput) (newId : Int)
    (maxDate : Int) (fuel : Nat) (check : GenAula → Option String) (a : GenAula)
    (hmem : a ∈ generateRecurrentClasses (mkAgendamento newId v) maxDate fuel)
    (hconf : check a ≠ none)
    (hactive : v.active = true)
    (hfresh : ∀ b ∈ st.aulas, b.agendamentoRecorrenteId ≠ some newId) :
    (∃ cl, (createRecurrentScheduling st v newId true true maxDate fuel check).1 =
      CreateRecurrentResponse.conflictDetected cl) ∧
    mkAgendamento newId v ∈
      (createRecurrentScheduling st v newId true true maxDate fuel check).2.agendamentos ∧
    (mkAgendamento newId v).active = true ∧
    ∀ b ∈ (createRecurrentScheduling st v newId true true maxDate fuel check).2.aulas,
      b.agendamentoRecorrenteId ≠ some newId := by
  have hne : (generateRecurrentClasses (mkAgendamento newId v) maxDate fuel).filterMap
      (fun a => (check a).map (fun s => (a.startTime, s))) ≠ [] := by
    intro hnil
    rw [List.filterMap_eq_nil_iff] at hnil
    have hnone := hnil a hmem
    rcases h : check a with _ | s
    · exact hconf h
    · rw [h] at hnone
      simp at hnone
  have hie : ((generateRecurrentClasses (mkAgendamento newId v) maxDate fuel).filterMap
      (fun a => (check a).map (fun s => (a.startTime, s)))).isEmpty = false := by
    rw [List.isEmpty_eq_false]
    exact hne
  unfold createRecurrentScheduling
  simp only [Bool.not_true, Bool.or_self, Bool.false_eq_true, if_false, hie, Bool.not_false,
    if_true]
  refine ⟨⟨_, rfl⟩, ?_, ?_, hfresh⟩
  · exact List.mem_append_right _ (List.mem_singleton_self _)
  · simp only [mkAgendamento]
    exact hactive

/-- Rule input for the C8/C10 witnesses: one daily class anchored 2024-03-04
10:00. -/
def c8Input : AgendamentoInput :=
  ⟨1, 2, "daily", 1, none, atDay (daysFromCivil 2024 3 4) 600, none, some 1, true⟩

/-- A checker that reports every candidate as conflicting. -/
def c8Check : GenAula → Option String :=
  fun _ => some "professor ocupado"

/-- The single class expanded from `c8Input` under rule id 41. -/
def c8Gen : GenAula :=
  ⟨some 41, 1, 2, atDay (daysFromCivil 2024 3 4) 600, atDay (daysFromCivil 2024 3 4) 660,
    "agendado", false⟩

/-- Witness for `C8_atomic_batch` on an empty store. -/
theorem C8_atomic_batch_witness :
    (createRecurrentScheduling ⟨[], []⟩ c8Input 41 true true (atDay (daysFromCivil 2024 9 4) 0)
        20 c8Check).2.aulas = SchedulerState.aulas ⟨[], []⟩ ∧
    ∃ cl, (createRecurrentScheduling ⟨[], []⟩ c8Input 41 true true
        (atDay (daysFromCivil 2024 9 4) 0) 20 c8Check).1 =
      CreateRecurrentResponse.conflictDetected cl :=
  C8_atomic_batch ⟨[], []⟩ c8Input 41 (atDay (daysFromCivil 2024 9 4) 0) 20 c8Check c8Gen
    (by decide) (by decide)

/-- Store for `C10_rule_persisted`'s witness: one unrelated standalone class. -/
def c10State : SchedulerState :=
  ⟨[], [⟨none, 9, 9, atDay (daysFromCivil 2024 3 1) 600, atDay (daysFromCivil 2024 3 1) 660,
    "agendado", false⟩]⟩

/-- Witness for `C10_rule_persisted`. -/
theorem C10_rule_persisted_witness :
    (∃ cl, (createRecurrentScheduling c10State c8Input 41 true true
        (atDay (daysFromCivil 2024 9 4) 0) 20 c8Check).1 =
      CreateRecurrentResponse.conflictDetected cl) ∧
    mkAgendamento 41 c8Input ∈
      (createRecurrentScheduling c10State c8Input 41 true true
        (atDay (daysFromCivil 2024 9 4) 0) 20 c8Check).2.agendamentos ∧
    (mkAgendamento 41 c8Input).active = true ∧
    ∀ b ∈ (createRecurrentScheduling c10State c8Input 41 true true
        (atDay (daysFromCivil 2024 9 4) 0) 20 c8Check).2.aulas,
      b.agendamentoRecorrenteId ≠ some 41 :=
  C10_rule_persisted c10State c8Input 41 (atDay (daysFromCivil 2024 9 4) 0) 20 c8Check c8Gen
    (by decide) (by decide) (by decide) (by decide)

/-! ## Claim C9: the suggested alternative slots -/

/-- Existing session blocking the requested 07:00–08:00 slot on 2024-01-02:
06:55–07:55, professor 1, scheduled. -/
def c9RowA : SessionRow :=
  ⟨1, atDay (daysFromCivil 2024 1 2) 415, atDay (daysFromCivil 2024 1 2) 475, "agendado"⟩

/-- A second session 09:10–09:40: clear of the request, but inside the
15-minute tolerance padding of the suggested 08:00–09:00 slot. -/
def c9RowB : SessionRow :=
  ⟨1, atDay (daysFromCivil 2024 1 2) 550, atDay (daysFromCivil 2024 1 2) 580, "agendado"⟩

/-- Claim C9's central promise, for the route's output: every suggested start
time produces zero conflicts under the same overlap test as the main check
(that is, including its 15-minute tolerance padding). -/
abbrev claimC9SuggestionsFree (existing : List SessionRow) (trainerId dateDays a b : Int) :
    Prop :=
  ∀ s ∈ (checkConflictsRoute existing trainerId dateDays a b).2,
    existing.filter (sessionConflictsRow trainerId dateDays s (s + (b - a))) = []

/-- **C9, counterexample.**  Requesting 07:00–08:00 against `c9RowA`/`c9RowB`
conflicts, and the route suggests 08:00 (its probe applies no tolerance, and
09:10 starts more than 15 minutes after 09:00) — but under the main check's
padded overlap test the suggested 08:00–09:00 slot still conflicts with the
09:10–09:40 session: the suggestion is not conflict-free under the same
test. -/
theorem C9_counterexample :
    ¬ claimC9SuggestionsFree [c9RowA, c9RowB] 1 (daysFromCivil 2024 1 2)
      (atDay (daysFromCivil 2024 1 2) 420) (atDay (daysFromCivil 2024 1 2) 480) := by
  decide

/-- Every entry of the probe ladder's first five slots is a valid minute of
the day. -/
theorem suggestionSlots_bounds : ∀ tod ∈ suggestionSlots, 0 ≤ tod ∧ tod < 1440 := by
  intro tod h
  simp [suggestionSlots] at h
  omega

/-- The mapped probe ladder is strictly increasing. -/
theorem suggestionSlots_map_pairwise (dateDays : Int) :
    List.Pairwise (· < ·) (suggestionSlots.map (atDay dateDays)) := by
  rw [← List.chain'_iff_pairwise]
  simp only [suggestionSlots, List.map_cons, List.map_nil, List.chain'_cons,
    List.chain'_singleton, and_true, atDay]
  omega

/-- **C9, amended.**  Suggestions are computed only when a conflict was found;
there are at most five of them, in increasing (hence earliest-first, never
proximity-sorted) order; each is one of the first five ladder slots
(06:00–08:00) on the requested day, and each is free only under the probe's
*unpadded* inclusive overlap test — the 15-minute tolerance of the main check
is not applied to suggestions. -/
theorem C9_amended (existing : List SessionRow) (trainerId dateDays a b : Int) :
    ((checkConflictsRoute existing trainerId dateDays a b).1 = [] →
      (checkConflictsRoute existing trainerId dateDays a b).2 = []) ∧
    (checkConflictsRoute existing trainerId dateDays a b).2.length ≤ 5 ∧
    List.Pairwise (· < ·) (checkConflictsRoute existing trainerId dateDays a b).2 ∧
    ∀ s ∈ (checkConflictsRoute existing trainerId dateDays a b).2,
      todOf s ∈ suggestionSlots ∧ dayOf s = dateDays ∧
      existing.filter (sessionHitsSlot trainerId dateDays s (s + (b - a))) = [] := by
  have hconf : (checkConflictsRoute existing trainerId dateDays a b).1 =
      existing.filter (sessionConflictsRow trainerId dateDays a b) := rfl
  have hsugg : (checkConflictsRoute existing trainerId dateDays a b).2 =
      (if (existing.filter (sessionConflictsRow trainerId dateDays a b)).isEmpty then []
       else (suggestionSlots.map (atDay dateDays)).filter (fun slotStart =>
        (existing.filter
          (sessionHitsSlot trainerId dateDays slotStart (slotStart + (b - a)))).length == 0)) :=
    rfl
  rw [hconf, hsugg]
  by_cases he : (existing.filter (sessionConflictsRow trainerId dateDays a b)).isEmpty
  · simp [he]
  · simp only [Bool.not_eq_true] at he
    simp only [he, Bool.false_eq_true, if_false]
    refine ⟨?_, ?_, ?_, ?_⟩
    · intro h
      rw [h] at he
      simp at he
    · exact le_trans (List.length_filter_le _ _) (by simp [suggestionSlots])
    · exact List.Pairwise.filter _ (suggestionSlots_map_pairwise dateDays)
    · intro s hs
      obtain ⟨hs1, hs2⟩ := List.mem_filter.mp hs
      obtain ⟨tod, htod, rfl⟩ := List.mem_map.mp hs1
      obtain ⟨hb0, hb1⟩ := suggestionSlots_bounds tod htod
      refine ⟨?_, dayOf_atDay _ _ hb0 hb1, ?_⟩
      · rw [todOf_atDay _ _ hb0 hb1]
        exact htod
      · simpa [beq_iff_eq, List.length_eq_zero] using hs2

/-- Witness for `C9_amended`: the suggested 08:00 slot of the counterexample
scenario, with its properties instantiated. -/
theorem C9_amended_witness :
    todOf (atDay (daysFromCivil 2024 1 2) 480) ∈ suggestionSlots ∧
    dayOf (atDay (daysFromCivil 2024 1 2) 480) = daysFromCivil 2024 1 2 ∧
    [c9RowA, c9RowB].filter (sessionHitsSlot 1 (daysFromCivil 2024 1 2)
      (atDay (daysFromCivil 2024 1 2) 480)
      (atDay (daysFromCivil 2024 1 2) 480 +
        (atDay (daysFromCivil 2024 1 2) 480 - atDay (daysFromCivil 2024 1 2) 420))) = [] :=
  (C9_amended [c9RowA, c9RowB] 1 (daysFromCivil 2024 1 2) (atDay (daysFromCivil 2024 1 2) 420)
    (atDay (daysFromCivil 2024 1 2) 480)).2.2.2 (atDay (daysFromCivil 2024 1 2) 480) (by decide)

end FavaleCRM
